import Mathlib

/-!
Verification of the core of the rackspace-monitoring driver
(`rackspace_monitoring/drivers/rackspace.py`): the cursor pagination
engine (`_get_more`), the resource identity resolver
(`_plural_to_singular`, `_url_to_obj_ids`), the create/update flow
(`_create`, `_update`), the response decoder (`parse_body`,
`parse_error`) and the cascading entity delete (`delete_entity`,
`ex_delete_checks`, `ex_delete_alarms`).

The embedding is shallow: Python dictionaries become association lists,
raised exceptions become `Except` errors, and the HTTP transport and the
external JSON text decoder (`json.loads`) are parameters, per the spec
these are external collaborators.  Where the code mutates state (the
caller supplied `data` dictionary in `_create`/`_update`, the mock
service state in the cascading delete) the mutation is passed
explicitly.
-/

/-- JSON values, as produced by the external `json` library once the
response text has been decoded.  JSON text serialization itself is a
spec non-goal; the model works on decoded values. -/
inductive Json where
  | null
  | bool (b : Bool)
  | num (n : Int)
  | str (s : String)
  | arr (elems : List Json)
  | obj (fields : List (String × Json))

/-- `v == None` test used by the key stripping loops. -/
def Json.isNull : Json → Bool
  | .null => true
  | _ => false

/-- The exceptions the driver code can raise, collapsed into one error
type: Python `KeyError`/`TypeError`/`IndexError`, the `LibcloudError`
messages of the driver, and the `RackspaceMonitoringValidationError`. -/
inductive DriverErr where
  | keyError
  | typeError
  | indexError
  | unknownCollection
  | missingLocation
  | unexpectedStatus (status : Nat)
  | unexpectedStatusUrl (status : Nat) (url : String) (details : Json)
  | missingContentType
  | malformedResponse
  | validationError (code : Json) (type_ : Json) (message : Json) (details : Json)
  | validationRaised (etype : String) (dtype : String)
  | fuelExhausted

/-- Python dictionary assignment `d[k] = v` on an association list
without duplicate keys: replace the entry for `k` in place, or append a
new entry at the end. -/
def dictInsert : List (String × String) → String → String → List (String × String)
  | [], k, v => [(k, v)]
  | (a, b) :: t, k, v => if a = k then (k, v) :: t else (a, b) :: dictInsert t k v

/-- Python truthiness of an optional string (`None` and `''` are falsy),
as used by `if not last_key` and `if key` in `_get_more`. -/
def pyTruthy : Option String → Bool
  | none => false
  | some s => if s = "" then false else true

/-- The `value_dict` handed to `_get_more` by every list operation:
url, optional extra params, optional start marker, and one of the two
mappers (`list_item_mapper` / `object_mapper`).  A mapper closes over
the rest of the `value_dict`, so it is a plain function here. -/
structure ValueDict (β : Type) where
  url : String
  params : List (String × String)
  start_marker : Option String
  list_item_mapper : Option (Json → β)
  object_mapper : Option (Json → β)

/-- The triple `newdata, self._last_key, self._exhausted` that
`_get_more` hands back to `LazyList`.  `newdata` is a list of mapped
items on the `list_item_mapper` path and a single mapped object on the
`object_mapper` path. -/
structure PageRet (β : Type) where
  newdata : List β ⊕ β
  last_key : Option String
  exhausted : Bool

/-- One `_get_more` call: the query parameters it sent through the
connection and the returned triple (or the exception it raised). -/
structure GetMoreCall (β : Type) where
  sentParams : List (String × String)
  result : Except DriverErr (PageRet β)

/-- A transport response: status code, optional `location` header and
the decoded JSON body. -/
structure HttpResponse where
  status : Nat
  location : Option String
  body : Json

/-- Python `resp[k]` on a decoded JSON value: `KeyError` when the key is
missing, `TypeError` when the value is not a dictionary. -/
def jindex (j : Json) (k : String) : Except DriverErr Json :=
  match j with
  | .obj fs => match fs.lookup k with
    | some v => .ok v
    | none => .error .keyError
  | _ => .error .typeError

/-- Iterating `for x in v`: `v` must be a JSON array here (the
`values` sequence of a page body). -/
def jelems : Json → Except DriverErr (List Json)
  | .arr xs => .ok xs
  | _ => .error .typeError

/-- `resp['metadata'].get('next_marker')`: absent and JSON null both
come back as `None`.  Per the wire contract (§6) `next_marker` is a
string or null; any other shape is outside the modelled inputs and
raises. -/
def getNextMarker : Json → Except DriverErr (Option String)
  | .obj fs => match fs.lookup "next_marker" with
    | none => .ok none
    | some .null => .ok none
    | some (.str s) => .ok (some s)
    | some _ => .error .typeError
  | _ => .error .typeError

/-- `body['details'] if 'details' in body else ''` on the decoded error
body (error bodies are JSON objects per the wire contract §6). -/
def errDetails (body : Json) : Json :=
  match body with
  | .obj fs => match fs.lookup "details" with
    | some d => d
    | none => .str ""
  | _ => .str ""

/-- The marker chosen by `_get_more`: `key = value_dict.get('start_marker')`
when `not last_key`, else `key = last_key`. -/
def getMoreKey (last_key start_marker : Option String) : Option String :=
  if pyTruthy last_key then last_key else start_marker

/-- The query parameters `_get_more` sends: the extra params of the
`value_dict`, with `params['marker'] = key` when `key` is truthy. -/
def getMoreParams {β : Type} (last_key : Option String) (vd : ValueDict β) :
    List (String × String) :=
  match getMoreKey last_key vd.start_marker with
  | some k => if k = "" then vd.params else dictInsert vd.params "marker" k
  | none => vd.params

/-- `RackspaceMonitoringDriver._get_more`, the fetch-one-page step of
the pagination engine.  `transport` stands for
`self.connection.request(url, params)` followed by `json.loads` on the
body. -/
def _get_more {β : Type} (transport : String → List (String × String) → HttpResponse)
    (last_key : Option String) (vd : ValueDict β) : GetMoreCall β :=
  let params := getMoreParams last_key vd
  let resp := transport vd.url params
  let result : Except DriverErr (PageRet β) :=
    if resp.status = 204 then
      .ok ⟨.inl [], none, false⟩
    else if resp.status = 200 then
      match vd.list_item_mapper with
      | some f => do
          let vj ← jindex resp.body "values"
          let vs ← jelems vj
          let mdj ← jindex resp.body "metadata"
          let m ← getNextMarker mdj
          pure ⟨.inl (vs.map f), m, m.isNone⟩
      | none =>
        match vd.object_mapper with
        | some g => do
            let mdj ← jindex resp.body "metadata"
            let m ← getNextMarker mdj
            pure ⟨.inr (g resp.body), m, m.isNone⟩
        | none => .error .keyError
    else
      .error (.unexpectedStatusUrl resp.status vd.url (errDetails resp.body))
  ⟨params, result⟩

theorem dictInsert_lookup (m : List (String × String)) (k v : String) :
    (dictInsert m k v).lookup k = some v := by
  induction m with
  | nil => simp [dictInsert, List.lookup]
  | cons p t ih =>
    obtain ⟨a, b⟩ := p
    by_cases h : a = k
    · simp [dictInsert, h, List.lookup]
    · simp only [dictInsert, if_neg h, List.lookup]
      have : (k == a) = false := by
        simp [beq_eq_false_iff_ne]
        exact fun hk => h hk.symm
      simp [this, ih]

/-- Claim C1 (code behavior at the failing input): a fetch whose
transport response has status 204 returns the triple
`([], None, False)` — the exhausted flag is `False`, not `True` as the
spec states, so the consuming `LazyList` loop would fetch the same
empty page again instead of ending the sequence. -/
theorem c1_no_content_page :
    (_get_more (fun _ _ => ⟨204, none, Json.null⟩) none
      (⟨"/entities", [], none, none, none⟩ : ValueDict Unit)).result =
      Except.ok ⟨Sum.inl [], none, false⟩ := rfl

/-- Claim C3: the query parameters sent by a page fetch are the
descriptor extra params with `marker` set to the current cursor when
one is set, else to the start marker on a first fetch when that is set,
else no marker is added; and whenever the previous page returned
`next_marker = k`, the request carries exactly `marker = k`. -/
theorem c3_marker_propagation {β : Type}
    (transport : String → List (String × String) → HttpResponse)
    (vd : ValueDict β) (last_key : Option String) :
    (_get_more transport last_key vd).sentParams = getMoreParams last_key vd
    ∧ (∀ k : String, last_key = some k → k ≠ "" →
        getMoreParams last_key vd = dictInsert vd.params "marker" k
        ∧ (dictInsert vd.params "marker" k).lookup "marker" = some k)
    ∧ (∀ s : String, last_key = none → vd.start_marker = some s → s ≠ "" →
        getMoreParams last_key vd = dictInsert vd.params "marker" s)
    ∧ (last_key = none → vd.start_marker = none →
        getMoreParams last_key vd = vd.params) := by
  refine ⟨rfl, ?_, ?_, ?_⟩
  · intro k hk hne
    subst hk
    constructor
    · simp [getMoreParams, getMoreKey, pyTruthy, hne]
    · exact dictInsert_lookup vd.params "marker" k
  · intro s hk hs hne
    subst hk
    simp [getMoreParams, getMoreKey, pyTruthy, hs, hne]
  · intro hk hs
    subst hk
    simp [getMoreParams, getMoreKey, pyTruthy, hs]

theorem except_bind_ok {ε α β : Type} (a : α) (f : α → Except ε β) :
    (Except.ok a : Except ε α) >>= f = f a := rfl

theorem except_bind_error {ε α β : Type} (e : ε) (f : α → Except ε β) :
    (Except.error e : Except ε α) >>= f = Except.error e := rfl

/-- Claim C4: on a successful (200) page fetch whose decoded body holds
a `values` array and a `metadata` object, `_get_more` returns the
elements of `values` each mapped through `list_item_mapper` when one is
set (otherwise the whole body mapped through `object_mapper`), the
cursor `metadata.next_marker`, and an exhausted flag that is true
exactly when `next_marker` is null or absent. -/
theorem c4_ok_page {β : Type} (f g : Json → β) (url : String)
    (ps : List (String × String)) (sm lk : Option String)
    (bf : List (String × Json)) (vs : List Json)
    (mdf : List (String × Json)) (m : Option String)
    (transport1 transport2 : String → List (String × String) → HttpResponse)
    (hv : bf.lookup "values" = some (Json.arr vs))
    (hm : bf.lookup "metadata" = some (Json.obj mdf))
    (hnm : getNextMarker (Json.obj mdf) = Except.ok m)
    (ht1 : transport1 url (getMoreParams lk ⟨url, ps, sm, some f, none⟩) =
      ⟨200, none, Json.obj bf⟩)
    (ht2 : transport2 url (getMoreParams lk ⟨url, ps, sm, none, some g⟩) =
      ⟨200, none, Json.obj bf⟩) :
    (_get_more transport1 lk ⟨url, ps, sm, some f, none⟩).result =
      Except.ok ⟨Sum.inl (vs.map f), m, m.isNone⟩
    ∧ (_get_more transport2 lk ⟨url, ps, sm, none, some g⟩).result =
      Except.ok ⟨Sum.inr (g (Json.obj bf)), m, m.isNone⟩
    ∧ (m.isNone = true ↔
        (mdf.lookup "next_marker" = none ∨ mdf.lookup "next_marker" = some Json.null)) := by
  refine ⟨?_, ?_, ?_⟩
  · simp only [_get_more, ht1]
    simp [jindex, jelems, hv, hm, hnm, except_bind_ok]
  · simp only [_get_more, ht2]
    simp [jindex, jelems, hm, hnm, except_bind_ok]
  · cases hl : mdf.lookup "next_marker" with
    | none =>
      simp only [getNextMarker, hl] at hnm
      cases hnm
      simp
    | some v =>
      cases v <;> simp only [getNextMarker, hl] at hnm <;> cases hnm <;> simp

/-- Modelled from the spec: `to_underscore_separated` lives in
`rackspace_monitoring/utils.py`, which is not among the staged source
files.  The spec (§4.2) says the key is "convert[ed] to
underscore-separated form": each uppercase letter of a camelCase word
becomes an underscore followed by its lowercase form. -/
def to_underscore_separated (s : String) : String :=
  String.mk (s.data.foldl
    (fun acc c => if c.isUpper then acc ++ ['_', c.toLower] else acc ++ [c]) [])

/-- The fixed plural/singular vocabulary of `_plural_to_singular`. -/
def pluralSingularTable : List (String × String) :=
  [("entities", "entity"),
   ("alarms", "alarm"),
   ("checks", "check"),
   ("notifications", "notification"),
   ("notification_plans", "notificationPlan")]

/-- `RackspaceMonitoringDriver._plural_to_singular`: the dictionary
lookup `kv[name]`, whose `KeyError` is the UnknownCollection failure. -/
def _plural_to_singular (name : String) : Except DriverErr String :=
  match pluralSingularTable.lookup name with
  | some v => .ok v
  | none => .error .unknownCollection

/-- Character-list test that `p` is a prefix of `s`, for the
`path.startswith(rp)` check. -/
def isPrefixChars : List Char → List Char → Bool
  | [], _ => true
  | _ :: _, [] => false
  | p :: ps, c :: cs => p = c && isPrefixChars ps cs

/-- `path[len(rp):] if path.startswith(rp) else path`. -/
def stripReqPath (rp path : String) : String :=
  if isPrefixChars rp.data path.data then String.mk (path.data.drop rp.data.length)
  else path

/-- Python `path.split('/')` on the character list: splitting on the
separator keeps empty segments, and an empty string gives `[""]`. -/
def splitSlashAux : List Char → List Char → List String
  | [], acc => [String.mk acc.reverse]
  | c :: rest, acc =>
    if c = '/' then String.mk acc.reverse :: splitSlashAux rest []
    else splitSlashAux rest (c :: acc)

/-- `path.split('/')[1:]` applied to the location path once the request
path prefix has been stripped. -/
def urlChunks (rp url : String) : List String :=
  (splitSlashAux (stripReqPath rp url).data []).drop 1

/-- The `for i in range(0, len(chunks), 2)` loop of `_url_to_obj_ids`:
each `(collection, id)` pair adds
`rv[to_underscore_separated(singular + '_id')] = id`; a missing
`chunks[i + 1]` is an `IndexError`. -/
def urlPairs : List String → List (String × String) → Except DriverErr (List (String × String))
  | [], rv => .ok rv
  | [c], _ => do
    let _ ← _plural_to_singular c
    .error .indexError
  | c :: id :: rest, rv => do
    let s ← _plural_to_singular c
    urlPairs rest (dictInsert rv (to_underscore_separated (s ++ "_id")) id)

/-- `RackspaceMonitoringDriver._url_to_obj_ids`.  The claims speak of
location paths, so the `urlparse(url).path` projection of a full URL is
outside the model; `url` here is the location path itself. -/
def _url_to_obj_ids (rp url : String) : Except DriverErr (List (String × String)) :=
  urlPairs (urlChunks rp url) []

/-- The dictionary key recorded for one `(collection, id)` pair. -/
def singularKey (c : String) : String :=
  to_underscore_separated (((pluralSingularTable.lookup c).getD "") ++ "_id")

/-- Alternating `collection :: id :: ...` segment list of a pair list. -/
def flattenPairs : List (String × String) → List String
  | [] => []
  | (c, i) :: rest => c :: i :: flattenPairs rest

theorem urlPairs_flatten (pairs : List (String × String)) (tail : List String)
    (rv : List (String × String))
    (h : ∀ p ∈ pairs, (pluralSingularTable.lookup p.1).isSome = true) :
    urlPairs (flattenPairs pairs ++ tail) rv =
      urlPairs tail (pairs.foldl (fun m p => dictInsert m (singularKey p.1) p.2) rv) := by
  induction pairs generalizing rv with
  | nil => simp [flattenPairs]
  | cons p rest ih =>
    obtain ⟨c, i⟩ := p
    have hc : (pluralSingularTable.lookup c).isSome = true := h (c, i) (by simp)
    obtain ⟨s, hs⟩ := Option.isSome_iff_exists.mp hc
    have hrest : ∀ p ∈ rest, (pluralSingularTable.lookup p.1).isSome = true :=
      fun q hq => h q (by simp [hq])
    simp only [flattenPairs, List.cons_append, urlPairs, _plural_to_singular, hs,
      except_bind_ok, List.foldl_cons]
    simpa [singularKey, hs] using ih _ hrest

/-- Claim C2: resolution walks the (collection, id) pairs of the
stripped and split location path, recording each id under the
underscore-separated singular collection name with the `_id` suffix;
and the location path `/v1.0/12345/entities/enABC/checks/chDEF` with
request prefix `/v1.0/12345` resolves to exactly
`entity_id = enABC, check_id = chDEF`. -/
theorem c2_url_resolution (pairs : List (String × String))
    (rv : List (String × String))
    (h : ∀ p ∈ pairs, (pluralSingularTable.lookup p.1).isSome = true) :
    urlPairs (flattenPairs pairs) rv =
      Except.ok (pairs.foldl (fun m p => dictInsert m (singularKey p.1) p.2) rv)
    ∧ urlChunks "/v1.0/12345" "/v1.0/12345/entities/enABC/checks/chDEF" =
      ["entities", "enABC", "checks", "chDEF"]
    ∧ _url_to_obj_ids "/v1.0/12345" "/v1.0/12345/entities/enABC/checks/chDEF" =
      Except.ok [("entity_id", "enABC"), ("check_id", "chDEF")] := by
  refine ⟨?_, rfl, rfl⟩
  have := urlPairs_flatten pairs [] rv h
  simpa [urlPairs] using this

/-- Claim C2 witness: the general pair-walk statement applied to the
pairs of the concrete location path of the claim. -/
theorem c2_url_resolution_witness :
    urlPairs (flattenPairs [("entities", "enABC"), ("checks", "chDEF")]) [] =
      Except.ok ([("entities", "enABC"), ("checks", "chDEF")].foldl
        (fun m p => dictInsert m (singularKey p.1) p.2) [])
    ∧ urlChunks "/v1.0/12345" "/v1.0/12345/entities/enABC/checks/chDEF" =
      ["entities", "enABC", "checks", "chDEF"]
    ∧ _url_to_obj_ids "/v1.0/12345" "/v1.0/12345/entities/enABC/checks/chDEF" =
      Except.ok [("entity_id", "enABC"), ("check_id", "chDEF")] :=
  c2_url_resolution [("entities", "enABC"), ("checks", "chDEF")] [] (by decide)

/-- Claim C9: a location path whose first collection name outside the
lookup table sits at an even position (all earlier collection names
being known) makes `_url_to_obj_ids` fail with the UnknownCollection
(`KeyError`) failure instead of producing a mapping. -/
theorem c9_unknown_collection (rp url : String) (good : List (String × String))
    (bad : String) (rest : List String)
    (hchunks : urlChunks rp url = flattenPairs good ++ bad :: rest)
    (hgood : ∀ p ∈ good, (pluralSingularTable.lookup p.1).isSome = true)
    (hbad : pluralSingularTable.lookup bad = none) :
    _url_to_obj_ids rp url = Except.error DriverErr.unknownCollection := by
  unfold _url_to_obj_ids
  rw [hchunks, urlPairs_flatten good (bad :: rest) [] hgood]
  cases rest with
  | nil => simp [urlPairs, _plural_to_singular, hbad, except_bind_error]
  | cons r rs => simp [urlPairs, _plural_to_singular, hbad, except_bind_error]

/-- Claim C9 witness: the unknown collection `widgets` in a concrete
location path fails the resolution. -/
theorem c9_unknown_collection_witness :
    _url_to_obj_ids "/v1.0/12345" "/v1.0/12345/widgets/w1" =
      Except.error DriverErr.unknownCollection :=
  c9_unknown_collection "/v1.0/12345" "/v1.0/12345/widgets/w1" [] "widgets" ["w1"]
    rfl (by simp) rfl

/-- The key-stripping loop shared by `_create` and `_update`:
`for k in data.keys(): if data[k] == None: del data[k]`.  On a Python 2
dictionary (`keys()` returns a fresh list) this leaves exactly the
entries whose value is not `None`, in place. -/
def stripNulls (data : List (String × Json)) : List (String × Json) :=
  data.filter (fun kv => !kv.2.isNull)

/-- The one request a `_create`/`_update` call issues. -/
structure WireRequest where
  method : String
  url : String
  payload : List (String × Json)

/-- Outcome of a `_create`/`_update` call: the request sent, the state
of the caller supplied `data` dictionary once the call has returned or
raised (the stripping mutates it in place), and the returned object or
raised exception. -/
structure CallResult (β : Type) where
  request : WireRequest
  dataAfter : List (String × Json)
  result : Except DriverErr β

/-- `RackspaceMonitoringDriver._create`: strip `None` valued keys, POST,
require status 201 (`httplib.CREATED`), require a truthy `location`
header, resolve it and apply the object constructor `coerce`.  `rp` is
`self.connection.request_path`; `resp` the transport response to the
POST. -/
def _create {β : Type} (rp url : String) (data : List (String × Json))
    (resp : HttpResponse) (coerce : List (String × String) → β) : CallResult β :=
  let stripped := stripNulls data
  let result : Except DriverErr β :=
    if resp.status = 201 then
      match resp.location with
      | none => .error .missingLocation
      | some loc =>
        if loc = "" then .error .missingLocation
        else
          match _url_to_obj_ids rp loc with
          | .ok obj_ids => .ok (coerce obj_ids)
          | .error e => .error e
    else .error (.unexpectedStatus resp.status)
  ⟨⟨"POST", url, stripped⟩, stripped, result⟩

/-- `RackspaceMonitoringDriver._update`: the same steps with PUT and
status 204 (`httplib.NO_CONTENT`). -/
def _update {β : Type} (rp url : String) (data : List (String × Json))
    (resp : HttpResponse) (coerce : List (String × String) → β) : CallResult β :=
  let stripped := stripNulls data
  let result : Except DriverErr β :=
    if resp.status = 204 then
      match resp.location with
      | none => .error .missingLocation
      | some loc =>
        if loc = "" then .error .missingLocation
        else
          match _url_to_obj_ids rp loc with
          | .ok obj_ids => .ok (coerce obj_ids)
          | .error e => .error e
    else .error (.unexpectedStatus resp.status)
  ⟨⟨"PUT", url, stripped⟩, stripped, result⟩

/-- Written from the words of the spec (§4.4): one helper, parameterized
only by the HTTP method and the required success status, that strips
absent-valued keys, issues the request, requires the success status,
fails with MissingLocation when the location header is missing, and
otherwise resolves the location and reconstructs the object. -/
def createUpdateSpec {β : Type} (method : String) (okStatus : Nat)
    (rp url : String) (data : List (String × Json))
    (resp : HttpResponse) (coerce : List (String × String) → β) : CallResult β :=
  let stripped := stripNulls data
  let result : Except DriverErr β :=
    if resp.status = okStatus then
      match resp.location with
      | none => .error .missingLocation
      | some loc =>
        if loc = "" then .error .missingLocation
        else
          match _url_to_obj_ids rp loc with
          | .ok obj_ids => .ok (coerce obj_ids)
          | .error e => .error e
    else .error (.unexpectedStatus resp.status)
  ⟨⟨method, url, stripped⟩, stripped, result⟩

theorem json_not_isNull_iff (v : Json) : (!v.isNull) = true ↔ v ≠ Json.null := by
  cases v <;> simp [Json.isNull]

/-- Claim C6: `_create` removes every null-valued key of `data` before
sending (the payload for a `label`/`who: null` dictionary keeps `label`
and omits `who` entirely), uses POST, fails with the missing-location
error on status 201 without a truthy location header, applies the
constructor to the resolved location ids on status 201 with a location
header, and fails with the unexpected-status error on any other
status. -/
theorem c6_create_flow {β : Type} (rp url : String)
    (data : List (String × Json)) (resp : HttpResponse)
    (coerce : List (String × String) → β) :
    (_create rp url data resp coerce).request.method = "POST"
    ∧ (_create rp url data resp coerce).request.url = url
    ∧ (_create rp url data resp coerce).request.payload = stripNulls data
    ∧ (∀ k v, (k, v) ∈ (_create rp url data resp coerce).request.payload ↔
        ((k, v) ∈ data ∧ v ≠ Json.null))
    ∧ stripNulls [("label", Json.str "x"), ("who", Json.null)] =
        [("label", Json.str "x")]
    ∧ (resp.status = 201 → resp.location = none →
        (_create rp url data resp coerce).result = Except.error DriverErr.missingLocation)
    ∧ (∀ loc, resp.status = 201 → resp.location = some loc → loc ≠ "" →
        (_create rp url data resp coerce).result =
          Except.map coerce (_url_to_obj_ids rp loc))
    ∧ (resp.status ≠ 201 →
        (_create rp url data resp coerce).result =
          Except.error (DriverErr.unexpectedStatus resp.status)) := by
  refine ⟨rfl, rfl, rfl, ?_, rfl, ?_, ?_, ?_⟩
  · intro k v
    simp only [_create, stripNulls, List.mem_filter]
    exact and_congr_right fun _ => json_not_isNull_iff v
  · intro hs hl
    simp [_create, hs, hl]
  · intro loc hs hl hne
    simp only [_create, hs, hl, if_pos rfl, if_neg hne]
    cases _url_to_obj_ids rp loc <;> simp [Except.map]
  · intro hs
    simp [_create, hs]

/-- Claim C7: `_create` and `_update` are the two instances of the one
spec helper, differing only in the HTTP method (POST versus PUT) and
the required success status (201 created versus 204 no content): the
key stripping, the missing-location failure and the
location-resolution-then-constructor result are shared. -/
theorem c7_update_refines_create {β : Type} (rp url : String)
    (data : List (String × Json)) (resp : HttpResponse)
    (coerce : List (String × String) → β) :
    _create rp url data resp coerce = createUpdateSpec "POST" 201 rp url data resp coerce
    ∧ _update rp url data resp coerce = createUpdateSpec "PUT" 204 rp url data resp coerce :=
  ⟨rfl, rfl⟩

/-- Claim C10: the null-valued keys are deleted from the caller
supplied dictionary itself — after `_create` or `_update` returns or
raises, the dictionary holds exactly the entries of the original whose
value was not null, in their original order (a sublist of the
original). -/
theorem c10_data_mutation {β : Type} (rp url : String)
    (data : List (String × Json)) (resp : HttpResponse)
    (coerce : List (String × String) → β) :
    (_create rp url data resp coerce).dataAfter = stripNulls data
    ∧ (_update rp url data resp coerce).dataAfter = stripNulls data
    ∧ List.Sublist (stripNulls data) data
    ∧ (∀ k v, (k, v) ∈ stripNulls data ↔ ((k, v) ∈ data ∧ v ≠ Json.null)) := by
  refine ⟨rfl, rfl, List.filter_sublist data, ?_⟩
  intro k v
  simp only [stripNulls, List.mem_filter]
  exact and_congr_right fun _ => json_not_isNull_iff v

/-- `content_type.split(';')[0]`: the content type up to a semicolon. -/
def takeUntilSemi : List Char → List Char
  | [] => []
  | c :: r => if c = ';' then [] else c :: takeUntilSemi r

/-- `RackspaceMonitoringResponse.parse_body`.  `loads` is the external
`json.loads` collaborator (JSON text decoding is a spec non-goal):
`none` models a parse failure.  The result is `none` for an empty body,
a decoded JSON value for `application/json`, and the raw body text for
`text/plain` and for any unrecognized content type. -/
def parse_body (loads : String → Option Json) (headers : List (String × String))
    (body : String) : Except DriverErr (Option (Json ⊕ String)) :=
  if body = "" then .ok none
  else
    match (if (headers.lookup "content-type").isSome then some "content-type"
           else if (headers.lookup "Content-Type").isSome then some "Content-Type"
           else none) with
    | none => .error .missingContentType
    | some key =>
      let raw_type := (headers.lookup key).getD ""
      let content_type := String.mk (takeUntilSemi raw_type.data)
      if content_type = "application/json" then
        match loads body with
        | some d => .ok (some (.inl d))
        | none => .error .malformedResponse
      else .ok (some (.inr body))

/-- `RackspaceMonitoringResponse.parse_error`: parse the body; on
status 400 (`httplib.BAD_REQUEST`) raise the validation error built
from the `message`, `code`, `type` and `details` fields of the body
(`KeyError` when such a field is missing, `TypeError` when the body is
not a JSON object); on every other status return the parsed body
unchanged. -/
def parse_error (loads : String → Option Json) (headers : List (String × String))
    (status : Nat) (body : String) : Except DriverErr (Option (Json ⊕ String)) := do
  let b ← parse_body loads headers body
  if status = 400 then
    match b with
    | some (.inl (Json.obj fs)) =>
      match fs.lookup "message", fs.lookup "code", fs.lookup "type", fs.lookup "details" with
      | some msg, some code, some ty, some det =>
        .error (.validationError code ty msg det)
      | _, _, _, _ => .error .keyError
    | _ => .error .typeError
  else .ok b

/-- Claim C8: for a JSON response body carrying `code`, `type`,
`message` and `details`, `parse_error` raises the validation error
carrying exactly those four field values if and only if the status is
400; on any other status it returns the decoded body unchanged. -/
theorem c8_parse_error_iff (loads : String → Option Json)
    (headers : List (String × String)) (status : Nat) (bodyStr : String)
    (fs : List (String × Json)) (msg code ty det : Json)
    (hct : headers.lookup "content-type" = some "application/json")
    (hbody : bodyStr ≠ "")
    (hloads : loads bodyStr = some (Json.obj fs))
    (hm : fs.lookup "message" = some msg)
    (hc : fs.lookup "code" = some code)
    (ht : fs.lookup "type" = some ty)
    (hd : fs.lookup "details" = some det) :
    (status = 400 →
      parse_error loads headers status bodyStr =
        Except.error (DriverErr.validationError code ty msg det))
    ∧ (status ≠ 400 →
      parse_error loads headers status bodyStr =
        Except.ok (some (Sum.inl (Json.obj fs))))
    ∧ ((∃ c t m d, parse_error loads headers status bodyStr =
        Except.error (DriverErr.validationError c t m d)) ↔ status = 400) := by
  have hctype : String.mk (takeUntilSemi ("application/json").data) =
      "application/json" := rfl
  have hpb : parse_body loads headers bodyStr =
      Except.ok (some (Sum.inl (Json.obj fs))) := by
    simp [parse_body, hbody, hct, hloads, hctype]
  have h400 : status = 400 →
      parse_error loads headers status bodyStr =
        Except.error (DriverErr.validationError code ty msg det) := by
    intro hs
    simp [parse_error, hpb, except_bind_ok, hs, hm, hc, ht, hd]
  have hother : status ≠ 400 →
      parse_error loads headers status bodyStr =
        Except.ok (some (Sum.inl (Json.obj fs))) := by
    intro hs
    simp [parse_error, hpb, except_bind_ok, hs]
  refine ⟨h400, hother, ?_, fun hs => ⟨code, ty, msg, det, h400 hs⟩⟩
  rintro ⟨c, t, m, d, he⟩
  by_contra hne
  rw [hother hne] at he
  cases he

/-- Claim C8 witness: status 400 with the decoded body
`code: 400, type: invalidJson, message: bad input, details: (empty)`
raises the validation error carrying all four fields unchanged. -/
theorem c8_parse_error_iff_witness :
    (400 = 400 →
      parse_error (fun _ => some (Json.obj
          [("code", Json.num 400), ("type", Json.str "invalidJson"),
           ("message", Json.str "bad input"), ("details", Json.obj [])]))
        [("content-type", "application/json")] 400 "b" =
        Except.error (DriverErr.validationError (Json.num 400)
          (Json.str "invalidJson") (Json.str "bad input") (Json.obj [])))
    ∧ (400 ≠ 400 →
      parse_error (fun _ => some (Json.obj
          [("code", Json.num 400), ("type", Json.str "invalidJson"),
           ("message", Json.str "bad input"), ("details", Json.obj [])]))
        [("content-type", "application/json")] 400 "b" =
        Except.ok (some (Sum.inl (Json.obj
          [("code", Json.num 400), ("type", Json.str "invalidJson"),
           ("message", Json.str "bad input"), ("details", Json.obj [])]))))
    ∧ ((∃ c t m d, parse_error (fun _ => some (Json.obj
          [("code", Json.num 400), ("type", Json.str "invalidJson"),
           ("message", Json.str "bad input"), ("details", Json.obj [])]))
        [("content-type", "application/json")] 400 "b" =
        Except.error (DriverErr.validationError c t m d)) ↔ 400 = 400) :=
  c8_parse_error_iff
    (fun _ => some (Json.obj
      [("code", Json.num 400), ("type", Json.str "invalidJson"),
       ("message", Json.str "bad input"), ("details", Json.obj [])]))
    [("content-type", "application/json")] 400 "b"
    [("code", Json.num 400), ("type", Json.str "invalidJson"),
     ("message", Json.str "bad input"), ("details", Json.obj [])]
    (Json.str "bad input") (Json.num 400) (Json.str "invalidJson") (Json.obj [])
    rfl (by decide) rfl rfl rfl rfl rfl

/-- Claim C4 witness: a one-item page whose `metadata.next_marker` is
null, fetched under each of the two mappers. -/
theorem c4_ok_page_witness :
    (_get_more (fun _ _ => ⟨200, none, Json.obj
        [("values", Json.arr [Json.num 1]),
         ("metadata", Json.obj [("next_marker", Json.null)])]⟩) none
      (⟨"/entities", [], none, some (fun j => j), none⟩ : ValueDict Json)).result =
      Except.ok ⟨Sum.inl [Json.num 1], none, true⟩
    ∧ (_get_more (fun _ _ => ⟨200, none, Json.obj
        [("values", Json.arr [Json.num 1]),
         ("metadata", Json.obj [("next_marker", Json.null)])]⟩) none
      (⟨"/entities", [], none, none, some (fun j => j)⟩ : ValueDict Json)).result =
      Except.ok ⟨Sum.inr (Json.obj
        [("values", Json.arr [Json.num 1]),
         ("metadata", Json.obj [("next_marker", Json.null)])]), none, true⟩
    ∧ ((none : Option String).isNone = true ↔
        (([(("next_marker" : String), Json.null)]).lookup "next_marker" = none
         ∨ ([(("next_marker" : String), Json.null)]).lookup "next_marker" =
             some Json.null)) :=
  c4_ok_page (fun j => j) (fun j => j) "/entities" [] none none
    [("values", Json.arr [Json.num 1]),
     ("metadata", Json.obj [("next_marker", Json.null)])]
    [Json.num 1] [("next_marker", Json.null)] none
    (fun _ _ => ⟨200, none, Json.obj
      [("values", Json.arr [Json.num 1]),
       ("metadata", Json.obj [("next_marker", Json.null)])]⟩)
    (fun _ _ => ⟨200, none, Json.obj
      [("values", Json.arr [Json.num 1]),
       ("metadata", Json.obj [("next_marker", Json.null)])]⟩)
    rfl rfl rfl rfl rfl

/-- An observable operation of the cascading-delete run against the
mock service. -/
inductive DOp where
  | attemptDeleteEntity
  | deleteCheck (id : String)
  | deleteAlarm (id : String)
deriving DecidableEq

/-- The mock service of the spec cascading-delete scenario: one entity
with its checks and alarms. -/
structure MockState where
  checks : List String
  alarms : List String
  entityExists : Bool
deriving DecidableEq

/-- A mock response to `DELETE /entities/id`: either the raised
validation error or a status code. -/
inductive DeleteResp where
  | validationRaised (etype : String) (dtype : String)
  | status (n : Nat)

/-- Mock `DELETE /entities/id`: the service reports
`childrenExistError` with `details.type = Check` while checks remain,
then with `details.type = Alarm` while alarms remain, else deletes the
entity with status 204. -/
def mockDeleteEntity (s : MockState) : DeleteResp × MockState :=
  if s.checks ≠ [] then (.validationRaised "childrenExistError" "Check", s)
  else if s.alarms ≠ [] then (.validationRaised "childrenExistError" "Alarm", s)
  else (.status 204, { s with entityExists := false })

/-- Mock `delete_check`: remove the check from the service. -/
def mockDeleteCheck (s : MockState) (id : String) : MockState :=
  { s with checks := s.checks.erase id }

/-- Mock `delete_alarm`: remove the alarm from the service. -/
def mockDeleteAlarm (s : MockState) (id : String) : MockState :=
  { s with alarms := s.alarms.erase id }

/-- `RackspaceMonitoringDriver.ex_delete_checks` against the mock
service: list the checks of the entity, then delete each one. -/
def ex_delete_checks (s : MockState) : MockState × List DOp :=
  (s.checks.foldl mockDeleteCheck s, s.checks.map DOp.deleteCheck)

/-- `RackspaceMonitoringDriver.ex_delete_alarms` against the mock
service: list the alarms of the entity, then delete each one. -/
def ex_delete_alarms (s : MockState) : MockState × List DOp :=
  (s.alarms.foldl mockDeleteAlarm s, s.alarms.map DOp.deleteAlarm)

/-- `RackspaceMonitoringDriver.delete_entity` run against the mock
service, with explicit fuel standing for the unbounded Python
recursion: on a `childrenExistError` with `ex_delete_children`, delete
the children of the reported type (checks for `Check`, alarms for
`Alarm`) and recurse; otherwise re-raise.  The trace records the
entity-delete attempts and the child deletions in order. -/
def delete_entity : Nat → Bool → MockState → Except DriverErr (Bool × MockState × List DOp)
  | 0, _, _ => .error .fuelExhausted
  | fuel + 1, exd, s =>
    match mockDeleteEntity s with
    | (.status n, s1) => .ok (decide (n = 204), s1, [DOp.attemptDeleteEntity])
    | (.validationRaised etype dtype, s1) =>
      if exd = false ∨ etype ≠ "childrenExistError" then
        .error (.validationRaised etype dtype)
      else
        let step :=
          if dtype = "Check" then ex_delete_checks s1
          else if dtype = "Alarm" then ex_delete_alarms s1
          else (s1, [])
        Except.map (fun r => (r.1, r.2.1, DOp.attemptDeleteEntity :: (step.2 ++ r.2.2)))
          (delete_entity fuel true step.1)

/-- Number of entity-delete attempts in a trace (1 + the number of
retries). -/
def countAttempts : List DOp → Nat
  | [] => 0
  | DOp.attemptDeleteEntity :: r => countAttempts r + 1
  | _ :: r => countAttempts r

/-- The trace of the recovery once no checks remain. -/
def c5traceTail (al : List String) : List DOp :=
  match al with
  | [] => [DOp.attemptDeleteEntity]
  | _ :: _ => DOp.attemptDeleteEntity :: (al.map DOp.deleteAlarm ++ [DOp.attemptDeleteEntity])

/-- The full trace of `delete_entity` with child deletion requested. -/
def c5trace (s : MockState) : List DOp :=
  match s.checks with
  | [] => c5traceTail s.alarms
  | _ :: _ => DOp.attemptDeleteEntity :: (s.checks.map DOp.deleteCheck ++ c5traceTail s.alarms)

theorem foldl_mockDeleteCheck (l : List String) (s : MockState) (h : s.checks = l) :
    l.foldl mockDeleteCheck s = ⟨[], s.alarms, s.entityExists⟩ := by
  induction l generalizing s with
  | nil =>
    obtain ⟨cs, al, e⟩ := s
    simp_all
  | cons a t ih =>
    have h2 : (mockDeleteCheck s a).checks = t := by
      simp [mockDeleteCheck, h, List.erase_cons_head]
    rw [List.foldl_cons, ih (mockDeleteCheck s a) h2]
    simp [mockDeleteCheck]

theorem foldl_mockDeleteAlarm (l : List String) (s : MockState) (h : s.alarms = l) :
    l.foldl mockDeleteAlarm s = ⟨s.checks, [], s.entityExists⟩ := by
  induction l generalizing s with
  | nil =>
    obtain ⟨cs, al, e⟩ := s
    simp_all
  | cons a t ih =>
    have h2 : (mockDeleteAlarm s a).alarms = t := by
      simp [mockDeleteAlarm, h, List.erase_cons_head]
    rw [List.foldl_cons, ih (mockDeleteAlarm s a) h2]
    simp [mockDeleteAlarm]

theorem delete_entity_fuel1 (e : Bool) :
    delete_entity 1 true ⟨[], [], e⟩ =
      Except.ok (true, ⟨[], [], false⟩, [DOp.attemptDeleteEntity]) := rfl

theorem delete_entity_fuel2_empty (e : Bool) :
    delete_entity 2 true ⟨[], [], e⟩ =
      Except.ok (true, ⟨[], [], false⟩, [DOp.attemptDeleteEntity]) := rfl

theorem delete_entity_fuel2_alarms (a : String) (al : List String) (e : Bool) :
    delete_entity 2 true ⟨[], a :: al, e⟩ =
      Except.ok (true, ⟨[], [], false⟩,
        DOp.attemptDeleteEntity ::
          ((a :: al).map DOp.deleteAlarm ++ [DOp.attemptDeleteEntity])) := by
  have hfold : (a :: al).foldl mockDeleteAlarm ⟨[], a :: al, e⟩ = (⟨[], [], e⟩ : MockState) :=
    foldl_mockDeleteAlarm (a :: al) ⟨[], a :: al, e⟩ rfl
  show Except.map
      (fun r => (r.1, r.2.1,
        DOp.attemptDeleteEntity :: ((a :: al).map DOp.deleteAlarm ++ r.2.2)))
      (delete_entity 1 true ((a :: al).foldl mockDeleteAlarm ⟨[], a :: al, e⟩)) = _
  rw [hfold, delete_entity_fuel1 e]
  rfl

theorem countAttempts_append (l1 l2 : List DOp) :
    countAttempts (l1 ++ l2) = countAttempts l1 + countAttempts l2 := by
  induction l1 with
  | nil => simp [countAttempts]
  | cons d t ih =>
    cases d with
    | attemptDeleteEntity => simp [countAttempts, ih]; omega
    | deleteCheck id => simp [countAttempts, ih]
    | deleteAlarm id => simp [countAttempts, ih]

theorem countAttempts_map_check (l : List String) :
    countAttempts (l.map DOp.deleteCheck) = 0 := by
  induction l with
  | nil => rfl
  | cons a t ih => simp [countAttempts, ih]

theorem countAttempts_map_alarm (l : List String) :
    countAttempts (l.map DOp.deleteAlarm) = 0 := by
  induction l with
  | nil => rfl
  | cons a t ih => simp [countAttempts, ih]

/-- Claim C5 (amended): with child deletion requested, each
`childrenExistError` makes the driver delete all children of the
reported type only (all checks for `details.type = Check`, all alarms
for `Alarm`) and then retry the entity delete once per handled error by
recursing until the delete succeeds; on the mock service every check is
deleted before the entity delete is first retried, the run ends with
the entity and all its children gone, and the number of entity-delete
attempts is one plus one retry per nonempty child kind. -/
theorem c5_cascade_amended (s : MockState) :
    delete_entity 3 true s = Except.ok (true, ⟨[], [], false⟩, c5trace s)
    ∧ countAttempts (c5trace s) =
        1 + (if s.checks = [] then 0 else 1) + (if s.alarms = [] then 0 else 1) := by
  obtain ⟨cs, al, e⟩ := s
  constructor
  · cases cs with
    | nil =>
      cases al with
      | nil => rfl
      | cons a al' =>
        have hfold : (a :: al').foldl mockDeleteAlarm ⟨[], a :: al', e⟩ =
            (⟨[], [], e⟩ : MockState) :=
          foldl_mockDeleteAlarm (a :: al') ⟨[], a :: al', e⟩ rfl
        show Except.map
            (fun r => (r.1, r.2.1,
              DOp.attemptDeleteEntity :: ((a :: al').map DOp.deleteAlarm ++ r.2.2)))
            (delete_entity 2 true ((a :: al').foldl mockDeleteAlarm ⟨[], a :: al', e⟩)) = _
        rw [hfold, delete_entity_fuel2_empty e]
        rfl
    | cons c cs' =>
      have hfold : (c :: cs').foldl mockDeleteCheck ⟨c :: cs', al, e⟩ =
          (⟨[], al, e⟩ : MockState) :=
        foldl_mockDeleteCheck (c :: cs') ⟨c :: cs', al, e⟩ rfl
      show Except.map
          (fun r => (r.1, r.2.1,
            DOp.attemptDeleteEntity :: ((c :: cs').map DOp.deleteCheck ++ r.2.2)))
          (delete_entity 2 true ((c :: cs').foldl mockDeleteCheck ⟨c :: cs', al, e⟩)) = _
      rw [hfold]
      cases al with
      | nil =>
        rw [delete_entity_fuel2_empty e]
        rfl
      | cons a al' =>
        rw [delete_entity_fuel2_alarms a al' e]
        rfl
  · cases cs <;> cases al <;>
      simp [c5trace, c5traceTail, countAttempts, countAttempts_append,
        countAttempts_map_check, countAttempts_map_alarm]

/-- Claim C5 counterexample: on the spec mock (2 checks, 1 alarm) the
run attempts the entity delete three times — the initial call plus two
retries, with an entity-delete attempt between the check deletions and
the alarm deletions — so it does not delete all checks then all alarms
and then retry exactly once (which would give two attempts). -/
theorem c5_retry_counterexample :
    delete_entity 5 true ⟨["ch1", "ch2"], ["al1"], true⟩ =
      Except.ok (true, ⟨[], [], false⟩,
        [DOp.attemptDeleteEntity, DOp.deleteCheck "ch1", DOp.deleteCheck "ch2",
         DOp.attemptDeleteEntity, DOp.deleteAlarm "al1", DOp.attemptDeleteEntity])
    ∧ countAttempts
        [DOp.attemptDeleteEntity, DOp.deleteCheck "ch1", DOp.deleteCheck "ch2",
         DOp.attemptDeleteEntity, DOp.deleteAlarm "al1", DOp.attemptDeleteEntity] = 3
    ∧ countAttempts
        [DOp.attemptDeleteEntity, DOp.deleteCheck "ch1", DOp.deleteCheck "ch2",
         DOp.attemptDeleteEntity, DOp.deleteAlarm "al1", DOp.attemptDeleteEntity] ≠ 2 :=
  ⟨rfl, rfl, by decide⟩
